import Mathlib

/-!
# Verification of the moltworker R2 mount / sync orchestrator

Shallow embedding of the mount-and-fallback orchestrator
(`src/gateway/r2.ts` in both its current multi-strategy form and its
legacy single-strategy form), the single-flight startup/mount guards
(`inflightMount` in `mountR2Storage`, `inFlightStartup` in
`withStartupLock`), and the sync paths (`syncToR2ViaMount` in
`src/gateway/sync.ts`, `syncToR2Binding` in `sync-binding`).

External effects (sandbox process spawns, the SDK `mountBucket` call,
R2 `put` calls) are modelled by an oracle ("world") that fixes, for each
external call the code can make, whether it throws and what it returns.
The mount-table probe `isR2Mounted` never throws in the source (it
catches internally and returns `false`); its successive answers are
modelled as an arbitrary function from the index of the check to `Bool`, so a
probe whose underlying command errored is simply a check that answered
`false`.  Each embedded function threads the index of the next mount
check and also returns the list of external events it performed, so that
"strategy X was never invoked" is a statement about that list.
-/

namespace Moltworker

/-! ## Environment (MoltbotEnv fields used by the mount/sync code)

TS truthiness: `!env.X` is true both when the variable is absent and
when it is the empty string, so optional string config is `Option String`
with `truthy` deciding the guard. -/

structure Env where
  CF_ACCOUNT_ID : Option String
  R2_ACCESS_KEY_ID : Option String
  R2_SECRET_ACCESS_KEY : Option String
  R2_BUCKET_NAME : Option String
deriving Repr, DecidableEq

/-- JS truthiness of an optional string (`undefined` and `""` are falsy). -/
def truthy : Option String → Bool
  | none => false
  | some s => s ≠ ""

/-- Embedding of `getR2BucketName` from `config.ts`: `env?.R2_BUCKET_NAME || "moltdata"`. -/
def getR2BucketName (env : Env) : String :=
  match env.R2_BUCKET_NAME with
  | some s => if s = "" then "moltdata" else s
  | none => "moltdata"

/-! ## String containment (JS `String.prototype.includes`) -/

/-- Test hasPrefixL p s: the char list `p` is an initial segment of `s`. -/
def hasPrefixL : List Char → List Char → Bool
  | [], _ => true
  | _ :: _, [] => false
  | p :: ps, c :: cs => p == c && hasPrefixL ps cs

/-- Test containsL s p: the char list `p` occurs contiguously inside `s`. -/
def containsL : List Char → List Char → Bool
  | [], p => hasPrefixL p []
  | s@(_ :: rest), p => hasPrefixL p s || containsL rest p

/-- JS `s.includes(pat)`. -/
def strContains (s pat : String) : Bool :=
  containsL s.data pat.data

/-! ## Error classification (`tryMountBucketSDK`, lines 213-216 of the
multi-strategy `r2.ts`):
`msg.includes("Credentials") ? "credentials" :
 msg.includes("already in use") || msg.includes("already mounted") ?
 "already-mounted" : "other"`. -/

inductive ErrType where
  | credentials
  | alreadyMounted
  | other
deriving Repr, DecidableEq

def classifyErr (msg : String) : ErrType :=
  if strContains msg "Credentials" then .credentials
  else if strContains msg "already in use" || strContains msg "already mounted" then
    .alreadyMounted
  else .other

/-! ## External events of the mount chain -/

inductive Ev where
  /-- one run of `isR2Mounted`, with the answer it produced -/
  | check (res : Bool)
  /-- one `sandbox.mountBucket(...)` call; `creds` = explicit credentials passed -/
  | sdkCall (creds : Bool)
  /-- the s3fs credential file write (`base64 -d > /etc/passwd-s3fs`) -/
  | credWrite
  /-- the direct `s3fs <bucket> <path>` mount command -/
  | s3fsCall
deriving Repr, DecidableEq

/-- Marks the events that invoke the side effects of a mount strategy
(everything except the read-only mount-table check). -/
def Ev.isStrategy : Ev → Bool
  | .check _ => false
  | _ => true

/-! ## World: outcomes of the external calls the mount chain can make -/

structure World where
  /-- Answer of the `i`-th `isR2Mounted` probe of the run (the probe
  itself never throws: internal errors surface as a `false` answer). -/
  isMountedAt : Nat → Bool
  /-- Outcome of `sandbox.mountBucket` by credentials flag:
  `none` = returns normally, `some msg` = throws with message `msg`. -/
  sdkErr : Bool → Option String
  /-- Throw point inside the s3fs fallback: `none` = no throw (runs to
  verification); `some 0` = throws before the credential write command is
  issued; `some 1` = after the credential write but before the s3fs mount
  command; `some n` (n ≥ 2) = after both commands, before verification.
  (No throw can occur after the verification check: the function returns
  immediately on its result.) -/
  s3fsThrowSite : Option Nat

/-! ## The strategies (multi-strategy `r2.ts`, `src/unnamed/part_000`) -/

/-- Embedding of `tryMountBucketSDK(sandbox, bucketName, endpoint, credentials?)`:
calls `mountBucket`; on normal return verifies via `isR2Mounted`; on a
throw classified `already-mounted` re-checks `isR2Mounted` and treats a
positive answer as success; on any other throw returns `false` with no
re-check.  Returns (verdict, next check index, events). -/
def tryMountBucketSDK (w : World) (k : Nat) (creds : Bool) :
    Bool × Nat × List Ev :=
  match w.sdkErr creds with
  | none =>
      let m := w.isMountedAt k
      (m, k + 1, [Ev.sdkCall creds, Ev.check m])
  | some msg =>
      if classifyErr msg = ErrType.alreadyMounted then
        let m := w.isMountedAt k
        (m, k + 1, [Ev.sdkCall creds, Ev.check m])
      else
        (false, k, [Ev.sdkCall creds])

/-- Embedding of `tryMountS3fs(sandbox, env, bucketName, endpoint)`: writes the
credential file, runs s3fs, then verifies via `isR2Mounted`; any throw
inside the `try` is caught and yields `false` without a verification
check.  Returns (verdict, next check index, events). -/
def tryMountS3fs (w : World) (k : Nat) : Bool × Nat × List Ev :=
  match w.s3fsThrowSite with
  | some 0 => (false, k, [])
  | some 1 => (false, k, [Ev.credWrite])
  | some _ => (false, k, [Ev.credWrite, Ev.s3fsCall])
  | none =>
      let m := w.isMountedAt k
      (m, k + 1, [Ev.credWrite, Ev.s3fsCall, Ev.check m])

/-- The strategy section of `doMount` (lines 130-162): strategy 1 is the
SDK mount without credentials; strategies 2 (SDK with credentials) and 3
(manual s3fs) run only when both explicit R2 credentials are configured;
the chain stops at the first strategy whose verification succeeded. -/
def strategyPhase (env : Env) (w : World) : Bool × Nat × List Ev :=
  let hasExplicitCreds :=
    truthy env.R2_ACCESS_KEY_ID && truthy env.R2_SECRET_ACCESS_KEY
  let r1 := tryMountBucketSDK w 1 false
  if r1.1 then (true, r1.2.1, r1.2.2)
  else if hasExplicitCreds then
    let r2 := tryMountBucketSDK w r1.2.1 true
    if r2.1 then (true, r2.2.1, r1.2.2 ++ r2.2.2)
    else
      let r3 := tryMountS3fs w r2.2.1
      (r3.1, r3.2.1, r1.2.2 ++ r2.2.2 ++ r3.2.2)
  else (false, r1.2.1, r1.2.2)

/-- Embedding of `doMount(sandbox, env)` of the multi-strategy `r2.ts`: fast path
(`isR2Mounted` at index 0) → strategy chain → final `isR2Mounted` check
whose answer is returned verbatim (never throws: every failure path
returns `false`). -/
def doMount (env : Env) (w : World) : Bool × List Ev :=
  if w.isMountedAt 0 then (true, [Ev.check true])
  else
    let sp := strategyPhase env w
    if sp.1 then (true, Ev.check false :: sp.2.2)
    else
      let mf := w.isMountedAt sp.2.1
      (mf, Ev.check false :: sp.2.2 ++ [Ev.check mf])

/-- Embedding of `mountR2Storage(sandbox, env)` (multi-strategy variant), in the
sequential no-in-flight case: `CF_ACCOUNT_ID` falsy short-circuits to
`false` before the in-flight guard and before `doMount`; otherwise the
call runs `doMount`.  (The in-flight coalescing itself is modelled
separately by the single-flight state machine below.) -/
def mountR2Storage (env : Env) (w : World) : Bool × List Ev :=
  if truthy env.CF_ACCOUNT_ID then doMount env w else (false, [])

/-! ## Legacy single-strategy variant (`src/src/gateway/r2.ts`) -/

/-- Embedding of `doMount` of the legacy `r2.ts`: fast path, then the inlined s3fs
attempt (same body as `tryMountS3fs`), then — whether that attempt threw
or merely failed verification — a final `isR2Mounted` check whose answer
is returned. -/
def doMountLegacy (w : World) : Bool × List Ev :=
  if w.isMountedAt 0 then (true, [Ev.check true])
  else
    let r := tryMountS3fs w 1
    if r.1 then (true, Ev.check false :: r.2.2)
    else
      let mf := w.isMountedAt r.2.1
      (mf, Ev.check false :: r.2.2 ++ [Ev.check mf])

/-- Embedding of `mountR2Storage` of the legacy `r2.ts` (sequential case): requires
all of `R2_ACCESS_KEY_ID`, `R2_SECRET_ACCESS_KEY`, `CF_ACCOUNT_ID`. -/
def mountR2StorageLegacy (env : Env) (w : World) : Bool × List Ev :=
  if truthy env.R2_ACCESS_KEY_ID && truthy env.R2_SECRET_ACCESS_KEY
      && truthy env.CF_ACCOUNT_ID then
    doMountLegacy w
  else (false, [])

/-! ## Single-flight guard (`inflightMount` in `r2.ts`,
`inFlightStartup` in `startup-state.ts`)

Both guards share one shape: a module-level slot holding the in-flight
promise, or `null`.  A call that finds the slot occupied returns the
stored promise (no second invocation of the wrapped function); a call
that finds it empty invokes the function, stores its promise, and the
slot is reset to `null` when that promise settles (the `finally` block
in `mountR2Storage`, the fulfilled/rejected handlers in
`withStartupLock`) — on success and on failure alike.

The isolate is single-threaded and cooperative (§5 of the spec), so the
guard is a sequential state machine over two kinds of events: a caller
arriving (`call`) and the in-flight promise settling (`settle`).
Executions of the wrapped function are numbered; a caller "receives"
the execution number of the promise it awaits, and two callers holding
the same number await the same promise and therefore observe the same
settled result (value or error). -/

structure GuardState where
  /-- the slot: execution number of the in-flight promise, if any -/
  inflight : Option Nat
  /-- how many times the wrapped function has been invoked so far -/
  execCount : Nat
deriving Repr, DecidableEq

inductive Act where
  | call
  | settle
deriving Repr, DecidableEq

/-- One guard transition.  Returns the new state, and — for a `call` —
the execution number handed to that caller. -/
def stepG (s : GuardState) : Act → GuardState × Option Nat
  | .call =>
      match s.inflight with
      | some e => (s, some e)
      | none =>
          (⟨some s.execCount, s.execCount + 1⟩, some s.execCount)
  | .settle => (⟨none, s.execCount⟩, none)

/-- Run a sequence of guard events, collecting the execution number
handed to each caller. -/
def runG (s : GuardState) : List Act → GuardState × List Nat
  | [] => (s, [])
  | a :: as =>
      let r := stepG s a
      let rest := runG r.1 as
      (rest.1, r.2.toList ++ rest.2)

/-! ## Sync (`syncToR2ViaMount` in `sync.ts`, `syncToR2Binding` in
`sync-binding.ts`) -/

/-- The `SyncResult` interface (identical in both files). -/
structure SyncResult where
  success : Bool
  lastSync : Option String := none
  error : Option String := none
  details : Option String := none
deriving Repr, DecidableEq

/-- External events of a sync run. -/
inductive SEv where
  /-- the probe `test -f /root/.openclaw/openclaw.json` -/
  | checkNew
  /-- the probe `test -f /root/.clawdbot/clawdbot.json` -/
  | checkLegacy
  /-- the rsync command chain (mount-based copy step) -/
  | rsync
  /-- the readback of the `.last-sync` marker file -/
  | catMarker
  /-- the `tar cz ... | base64` archive command (binding path) -/
  | tar
  /-- the put of the archive object (BACKUP_KEY) -/
  | putArchive
  /-- the put of the timestamp marker object (LAST_SYNC_KEY) -/
  | putMarker
deriving Repr, DecidableEq

/-- Whitespace trimming (`String.prototype.trim`), written over the
char list so it evaluates by kernel reduction.  (Lean and JS agree on
the ASCII whitespace the code can meet here.) -/
def trimL (l : List Char) : List Char :=
  ((l.dropWhile Char.isWhitespace).reverse.dropWhile Char.isWhitespace).reverse

def strTrim (s : String) : String := ⟨trimL s.data⟩

/-- JS `a || b` on an optional string against a fallback (both
`undefined` and `""` fall through). -/
def jsOr (a : Option String) (b : String) : String :=
  match a with
  | some s => if s = "" then b else s
  | none => b

/-- The regex test `lastSync.match(/^\d{4}-\d{2}-\d{2}/)` on the char
list: four digits, `-`, two digits, `-`, two digits at the start. -/
def isoDateL : List Char → Bool
  | a :: b :: c :: d :: '-' :: e :: f :: '-' :: g :: h :: _ =>
      a.isDigit && b.isDigit && c.isDigit && d.isDigit
        && e.isDigit && f.isDigit && g.isDigit && h.isDigit
  | _ => false

def isoDateStart (s : String) : Bool := isoDateL s.data

/-- Shared config-directory check (lines 48-72 of `sync.ts`, 44-68 of
`sync-binding.ts`): probe for `openclaw.json`; when its exit code is not
`0` probe for the legacy `clawdbot.json`; abort when neither is present,
and turn a thrown probe into a "Failed to verify source files" result.
The outcome of each probe is `Except`: `.error msg` = `startProcess` threw,
`.ok code` = the observed `exitCode` (`none` = still running / absent).
Returns either the aborting `SyncResult` or the chosen config dir,
together with the probe events that ran. -/
def configCheck (checkNew checkLegacy : Except String (Option Int))
    (newDir legacyDir noCfgDetails : String) :
    Except SyncResult String × List SEv :=
  match checkNew with
  | .error e =>
      (.error { success := false, error := some "Failed to verify source files",
                details := some e }, [SEv.checkNew])
  | .ok code =>
      if code = some 0 then (.ok newDir, [SEv.checkNew])
      else
        match checkLegacy with
        | .error e =>
            (.error { success := false,
                      error := some "Failed to verify source files",
                      details := some e }, [SEv.checkNew, SEv.checkLegacy])
        | .ok code2 =>
            if code2 = some 0 then (.ok legacyDir, [SEv.checkNew, SEv.checkLegacy])
            else
              (.error { success := false,
                        error := some "Sync aborted: no config file found",
                        details := some noCfgDetails },
               [SEv.checkNew, SEv.checkLegacy])

/-- Outcomes of the external calls `syncToR2ViaMount` can make. -/
structure MountSyncWorld where
  checkNew : Except String (Option Int)
  checkLegacy : Except String (Option Int)
  /-- set to the message when `startProcess(syncCmd)` threw -/
  rsyncThrow : Option String
  /-- captured `(stdout, stderr)` of the rsync chain -/
  rsyncStdout : Option String
  rsyncStderr : Option String
  /-- set to the message when the marker readback spawn threw -/
  catThrow : Option String
  /-- stdout of the marker readback -/
  catStdout : Option String

/-- Embedding of `syncToR2ViaMount(sandbox, env)`: config check, rsync chain, read
the `.last-sync` marker back; success iff the trimmed marker is a
nonempty string starting with an ISO date; otherwise "Sync failed" with
`stderr || stdout` (with a default note) as details; a throw
around the copy step yields "Sync error". -/
def syncToR2ViaMount (w : MountSyncWorld) : SyncResult × List SEv :=
  let cc := configCheck w.checkNew w.checkLegacy "/root/.openclaw"
    "/root/.clawdbot" "Neither openclaw.json nor clawdbot.json found in config directory."
  match cc.1 with
  | .error r => (r, cc.2)
  | .ok _configDir =>
      match w.rsyncThrow with
      | some e =>
          ({ success := false, error := some "Sync error", details := some e },
           cc.2 ++ [SEv.rsync])
      | none =>
          match w.catThrow with
          | some e =>
              ({ success := false, error := some "Sync error", details := some e },
               cc.2 ++ [SEv.rsync, SEv.catMarker])
          | none =>
              let lastSync := w.catStdout.map strTrim
              match lastSync with
              | some t =>
                  if t ≠ "" && isoDateStart t then
                    ({ success := true, lastSync := some t },
                     cc.2 ++ [SEv.rsync, SEv.catMarker])
                  else
                    ({ success := false, error := some "Sync failed",
                       details := some (jsOr w.rsyncStderr
                         (jsOr w.rsyncStdout "No timestamp file created")) },
                     cc.2 ++ [SEv.rsync, SEv.catMarker])
              | none =>
                  ({ success := false, error := some "Sync failed",
                     details := some (jsOr w.rsyncStderr
                       (jsOr w.rsyncStdout "No timestamp file created")) },
                   cc.2 ++ [SEv.rsync, SEv.catMarker])

/-- Outcomes of the external calls `syncToR2Binding` can make. -/
structure BindSyncWorld where
  /-- is `env.MOLTBOT_BUCKET` present (truthy)? -/
  hasBucket : Bool
  checkNew : Except String (Option Int)
  checkLegacy : Except String (Option Int)
  /-- set to the message when `startProcess(tarCmd)` threw -/
  tarThrow : Option String
  /-- stdout of the `tar cz ... | base64 -w0` pipeline -/
  tarStdout : Option String
  tarStderr : Option String
  /-- set to the message when the archive put threw -/
  putArchiveThrow : Option String
  /-- set to the message when the marker put threw -/
  putMarkerThrow : Option String
  /-- the value of `new Date().toISOString()` at the upload moment -/
  now : String

/-- Embedding of `syncToR2Binding(sandbox, env)`: bucket-binding guard, config check,
tar-to-base64 archive step; an empty (or absent) trimmed stdout is an
outright "Backup produced no output" failure with no upload; otherwise
the archive object and the timestamp marker object are put to R2 and the
call succeeds with `lastSync = now`; any throw inside the `try` is
caught as "Binding backup failed". -/
def syncToR2Binding (w : BindSyncWorld) : SyncResult × List SEv :=
  if ¬ w.hasBucket then
    ({ success := false,
       error := some "R2 bucket binding (MOLTBOT_BUCKET) not available" }, [])
  else
    let cc := configCheck w.checkNew w.checkLegacy ".openclaw" ".clawdbot"
      "Neither openclaw.json nor clawdbot.json found."
    match cc.1 with
    | .error r => (r, cc.2)
    | .ok _configDir =>
        match w.tarThrow with
        | some e =>
            ({ success := false, error := some "Binding backup failed",
               details := some e }, cc.2 ++ [SEv.tar])
        | none =>
            let base64 := (w.tarStdout.map strTrim).getD ""
            if base64 = "" then
              let stderr := (w.tarStderr.map strTrim).getD ""
              ({ success := false, error := some "Backup produced no output",
                 details := some (if stderr = "" then
                   "tar may have failed (check container logs)" else stderr) },
               cc.2 ++ [SEv.tar])
            else
              match w.putArchiveThrow with
              | some e =>
                  ({ success := false, error := some "Binding backup failed",
                     details := some e }, cc.2 ++ [SEv.tar, SEv.putArchive])
              | none =>
                  match w.putMarkerThrow with
                  | some e =>
                      ({ success := false, error := some "Binding backup failed",
                         details := some e },
                       cc.2 ++ [SEv.tar, SEv.putArchive, SEv.putMarker])
                  | none =>
                      ({ success := true, lastSync := some w.now },
                       cc.2 ++ [SEv.tar, SEv.putArchive, SEv.putMarker])

/-! ## Concrete environments and worlds used by witnesses and
counterexamples -/

def envAll : Env := ⟨some "acct", some "key", some "secret", none⟩

def envCFOnly : Env := ⟨some "acct", none, none, none⟩

def envNoCF : Env := ⟨none, some "key", some "secret", none⟩

/-- A world in which the bucket is mounted from the start. -/
def wMounted : World := ⟨fun _ => true, fun _ => none, none⟩

/-- A world in which every external mount call throws an error that the
classifier files under `other`, and no check ever finds a mount. -/
def wBoom : World := ⟨fun _ => false, fun _ => some "boom", some 0⟩

/-- A world in which `mountBucket` throws an already-in-use error while
the bucket is in fact mounted (every probe after the first says so). -/
def wConflict : World :=
  ⟨fun k => k != 0, fun _ => some "Mount path already in use", none⟩

/-- A world in which every strategy throws, yet the mount is present on
any probe after the first — the "succeeded despite errors" scenario. -/
def wDespite : World := ⟨fun k => k != 0, fun _ => some "boom", some 0⟩

/-- Mount-sync world: neither config file exists (both probes exit 1). -/
def wmNoCfg : MountSyncWorld :=
  ⟨Except.ok (some 1), Except.ok (some 1), none, none, none, none, none⟩

/-- Mount-sync world: the current config file exists, the copy runs, and
the marker reads back as an ISO timestamp. -/
def wmOk : MountSyncWorld :=
  ⟨Except.ok (some 0), Except.ok (some 1), none, none, none, none,
   some "2026-01-27T12:00:00+00:00\n"⟩

/-- Binding-sync world: neither config file exists. -/
def wbNoCfg : BindSyncWorld :=
  ⟨true, Except.ok (some 1), Except.ok (some 1), none, none, none, none, none,
   "2026-01-27T00:00:00.000Z"⟩

/-- Binding-sync world: the archive step runs but produces no output. -/
def wbEmpty : BindSyncWorld :=
  ⟨true, Except.ok (some 0), Except.ok (some 1), none, some "",
   some "tar: /root/clawd: No such file or directory", none, none,
   "2026-01-27T00:00:00.000Z"⟩

/-! ## Helper lemmas -/

/-- While the guard slot is occupied by execution `e`, any number of
further calls leave the state untouched and each receives `e`. -/
theorem runG_joined (s : GuardState) (e : Nat) (h : s.inflight = some e) :
    ∀ n, runG s (List.replicate n Act.call) = (s, List.replicate n e) := by
  intro n
  induction n with
  | zero => simp [runG]
  | succ n ih =>
      rw [List.replicate_succ]
      simp [runG, stepG, h, ih, List.replicate_succ]

/-- The config-directory check only ever runs the two file probes. -/
theorem configCheck_mem (cn cl : Except String (Option Int))
    (nd ld m : String) :
    ∀ e ∈ (configCheck cn cl nd ld m).2,
      e = SEv.checkNew ∨ e = SEv.checkLegacy := by
  intro e he
  cases cn with
  | error s =>
      simp [configCheck] at he
      simp [he]
  | ok c =>
      by_cases h : c = some 0
      · simp [configCheck, h] at he
        simp [he]
      · cases cl with
        | error s =>
            simp [configCheck, h] at he
            tauto
        | ok c2 =>
            by_cases h2 : c2 = some 0 <;>
              simp [configCheck, h, h2] at he <;> tauto

/-! ## Claim theorems -/

/-- **C1.** For every set of concurrent calls to the single-flight guard
(`mountR2Storage` / `withStartupLock`) made while one call under the
same key is still in flight, the wrapped underlying operation executes
exactly once and every caller receives the same settled result.  In the
guard state machine: with execution `e` in flight, `n` further calls
change nothing and each receives `e` (the same promise, hence the same
settled value or error); and from the idle state, `n + 1` overlapping
calls invoke the wrapped function exactly once (`execCount = 1`) with
every caller holding execution `0`. -/
theorem singleFlight_exactly_one_execution (n : Nat) (s : GuardState)
    (e : Nat) (h : s.inflight = some e) :
    runG s (List.replicate n Act.call) = (s, List.replicate n e)
    ∧ runG ⟨none, 0⟩ (List.replicate (n + 1) Act.call)
        = (⟨some 0, 1⟩, List.replicate (n + 1) 0) := by
  refine ⟨runG_joined s e h n, ?_⟩
  rw [List.replicate_succ]
  have hj := runG_joined ⟨some 0, 1⟩ 0 rfl n
  simp [runG, stepG, hj, List.replicate_succ]

/-- Witness for C1 at a concrete state and call count. -/
theorem singleFlight_exactly_one_execution_witness :
    runG ⟨some 5, 6⟩ (List.replicate 2 Act.call)
      = (⟨some 5, 6⟩, List.replicate 2 5)
    ∧ runG ⟨none, 0⟩ (List.replicate (2 + 1) Act.call)
        = (⟨some 0, 1⟩, List.replicate (2 + 1) 0) :=
  singleFlight_exactly_one_execution 2 ⟨some 5, 6⟩ 5 rfl

/-- **C2.** After any settlement (success or failure) of a
single-flight-guarded call, the in-flight registration is cleared, so a
strictly subsequent (non-overlapping) call starts a brand-new execution
of the underlying operation.  In the state machine: `settle` always
empties the slot, and the next call then invokes the wrapped function
again (`execCount` increments) and receives the fresh execution number
`s.execCount` — not any previously settled promise, so a failed result
is never served from a cache. -/
theorem singleFlight_retry_after_settle (s : GuardState) :
    (stepG s Act.settle).1.inflight = none
    ∧ stepG (stepG s Act.settle).1 Act.call
        = (⟨some s.execCount, s.execCount + 1⟩, some s.execCount) :=
  ⟨rfl, rfl⟩

/-- **C3 counterexample.** The claim says every strategy attempt gets an
`isMounted` re-check before being judged, even when it throws an error
not classified as already-mounted-conflict.  In the world `wBoom` the
SDK strategy throws `"boom"` (classified `other`): the attempt is judged
failed (verdict `false`) with the check counter still at `0` and no
`check` event — `isMounted` was not re-run before the chain moved on. -/
theorem tryMountBucketSDK_no_recheck_on_other_error :
    tryMountBucketSDK wBoom 0 false = (false, 0, [Ev.sdkCall false])
    ∧ Ev.check false ∉ (tryMountBucketSDK wBoom 0 false).2.2
    ∧ Ev.check true ∉ (tryMountBucketSDK wBoom 0 false).2.2 := by
  decide

/-- **C3 (amended).** A strategy attempt that returns normally, or that
throws an error classified as already-mounted-conflict, runs `isMounted`
exactly once more before it is judged (the check counter advances by
one); an attempt that throws any other error is judged failed with no
re-check and no further events; and the s3fs fallback likewise re-checks
exactly once whenever it does not throw. -/
theorem strategy_verification_policy (w : World) (k : Nat) (c : Bool) :
    (w.sdkErr c = none → (tryMountBucketSDK w k c).2.1 = k + 1)
    ∧ (∀ msg, w.sdkErr c = some msg →
        classifyErr msg = ErrType.alreadyMounted →
        (tryMountBucketSDK w k c).2.1 = k + 1)
    ∧ (∀ msg, w.sdkErr c = some msg →
        classifyErr msg ≠ ErrType.alreadyMounted →
        tryMountBucketSDK w k c = (false, k, [Ev.sdkCall c]))
    ∧ (w.s3fsThrowSite = none → (tryMountS3fs w k).2.1 = k + 1) := by
  refine ⟨?_, ?_, ?_, ?_⟩
  · intro h
    simp [tryMountBucketSDK, h]
  · intro msg h hc
    simp [tryMountBucketSDK, h, hc]
  · intro msg h hc
    simp [tryMountBucketSDK, h, hc]
  · intro h
    simp [tryMountS3fs, h]

/-- Witness for the amended C3, covering the normal-return case, the
already-mounted-conflict case, the other-error case, and the s3fs
no-throw case at concrete worlds. -/
theorem strategy_verification_policy_witness :
    (tryMountBucketSDK wMounted 0 false).2.1 = 0 + 1
    ∧ (tryMountBucketSDK wConflict 1 false).2.1 = 1 + 1
    ∧ tryMountBucketSDK wBoom 5 true = (false, 5, [Ev.sdkCall true])
    ∧ (tryMountS3fs wMounted 2).2.1 = 2 + 1 :=
  ⟨(strategy_verification_policy wMounted 0 false).1 rfl,
   (strategy_verification_policy wConflict 1 false).2.1
     "Mount path already in use" rfl (by decide),
   (strategy_verification_policy wBoom 5 true).2.2.1 "boom" rfl (by decide),
   (strategy_verification_policy wMounted 2 false).2.2.2 rfl⟩

/-- **C4.** Whenever `isMounted` reports true before any strategy runs,
`attach` (`mountR2Storage`) returns true and invokes zero strategies: no
credential write, no SDK mount call, no s3fs invocation happens on the
fast path.  Holds for the multi-strategy variant and (given its stricter
credential precondition) for the legacy variant; the only event of the run is
the single positive mount-table check. -/
theorem fastPath_no_strategies (env : Env) (w : World)
    (hcf : truthy env.CF_ACCOUNT_ID = true)
    (hm : w.isMountedAt 0 = true) :
    mountR2Storage env w = (true, [Ev.check true])
    ∧ (truthy env.R2_ACCESS_KEY_ID = true →
        truthy env.R2_SECRET_ACCESS_KEY = true →
        mountR2StorageLegacy env w = (true, [Ev.check true]))
    ∧ ∀ e ∈ (mountR2Storage env w).2, e.isStrategy = false := by
  refine ⟨?_, ?_, ?_⟩
  · simp [mountR2Storage, doMount, hcf, hm]
  · intro h1 h2
    simp [mountR2StorageLegacy, doMountLegacy, hcf, h1, h2, hm]
  · simp [mountR2Storage, doMount, hcf, hm, Ev.isStrategy]

/-- Witness for C4: full configuration, bucket already mounted. -/
theorem fastPath_no_strategies_witness :
    mountR2Storage envAll wMounted = (true, [Ev.check true])
    ∧ (truthy envAll.R2_ACCESS_KEY_ID = true →
        truthy envAll.R2_SECRET_ACCESS_KEY = true →
        mountR2StorageLegacy envAll wMounted = (true, [Ev.check true]))
    ∧ ∀ e ∈ (mountR2Storage envAll wMounted).2, e.isStrategy = false :=
  fastPath_no_strategies envAll wMounted rfl rfl

/-- **C5.** When a strategy attempt throws an error classified as
already-mounted-conflict (message contains "already in use" or
"already mounted"), `isMounted` is immediately re-run; if it reports
true the strategy is treated as successful and `attach` returns true.
Stated for strategy 1 (the SDK mount without credentials): the attempt
yields verdict true having consumed exactly the one re-check, and
`mountR2Storage` returns true. -/
theorem conflict_error_rechecks_and_succeeds (env : Env) (w : World)
    (msg : String)
    (hcf : truthy env.CF_ACCOUNT_ID = true)
    (h0 : w.isMountedAt 0 = false)
    (herr : w.sdkErr false = some msg)
    (hclass : classifyErr msg = ErrType.alreadyMounted)
    (h1 : w.isMountedAt 1 = true) :
    tryMountBucketSDK w 1 false = (true, 2, [Ev.sdkCall false, Ev.check true])
    ∧ (mountR2Storage env w).1 = true := by
  have hstrat : tryMountBucketSDK w 1 false
      = (true, 2, [Ev.sdkCall false, Ev.check true]) := by
    simp [tryMountBucketSDK, herr, hclass, h1]
  refine ⟨hstrat, ?_⟩
  simp [mountR2Storage, doMount, strategyPhase, hcf, h0, hstrat]

/-- Witness for C5: the SDK throws "Mount path already in use" while the
mount table says the bucket is attached. -/
theorem conflict_error_rechecks_and_succeeds_witness :
    tryMountBucketSDK wConflict 1 false
      = (true, 2, [Ev.sdkCall false, Ev.check true])
    ∧ (mountR2Storage envCFOnly wConflict).1 = true :=
  conflict_error_rechecks_and_succeeds envCFOnly wConflict
    "Mount path already in use" rfl rfl rfl (by decide) rfl

/-- **C6.** If every strategy is exhausted without verified success,
`attach` runs one final `isMounted` check and returns exactly its result
(true when a side effect of a failed strategy attached the bucket
anyway), and in the false case it returns false rather than raising — in
the embedding the function is total and its value is literally the answer of the
final check, with that check as the last event of the run. -/
theorem exhausted_chain_final_check (env : Env) (w : World)
    (hcf : truthy env.CF_ACCOUNT_ID = true)
    (h0 : w.isMountedAt 0 = false)
    (hsp : (strategyPhase env w).1 = false) :
    mountR2Storage env w
      = (w.isMountedAt (strategyPhase env w).2.1,
         Ev.check false :: (strategyPhase env w).2.2
           ++ [Ev.check (w.isMountedAt (strategyPhase env w).2.1)]) := by
  simp [mountR2Storage, doMount, hcf, h0, hsp]

/-- Witness for C6: every strategy throws, yet the final check finds the
mount present, so the whole call returns true despite the errors. -/
theorem exhausted_chain_final_check_witness :
    mountR2Storage envAll wDespite
      = (wDespite.isMountedAt (strategyPhase envAll wDespite).2.1,
         Ev.check false :: (strategyPhase envAll wDespite).2.2
           ++ [Ev.check (wDespite.isMountedAt
                 (strategyPhase envAll wDespite).2.1)]) :=
  exhausted_chain_final_check envAll wDespite rfl rfl (by decide)

/-- **C7.** For every configuration missing the required account
identifier (`CF_ACCOUNT_ID` absent or empty), `attach` returns false
without invoking any strategy and without throwing: both variants return
`(false, [])` — no process spawned, no SDK call, no event at all. -/
theorem missing_account_id_skips_all (env : Env) (w : World)
    (hcf : truthy env.CF_ACCOUNT_ID = false) :
    mountR2Storage env w = (false, [])
    ∧ mountR2StorageLegacy env w = (false, []) := by
  constructor
  · simp [mountR2Storage, hcf]
  · simp [mountR2StorageLegacy, hcf]

/-- Witness for C7: `CF_ACCOUNT_ID` unset even though explicit R2
credentials are present. -/
theorem missing_account_id_skips_all_witness :
    mountR2Storage envNoCF wMounted = (false, [])
    ∧ mountR2StorageLegacy envNoCF wMounted = (false, []) :=
  missing_account_id_skips_all envNoCF wMounted rfl

/-- **C8.** If neither recognized configuration file exists (the current
`openclaw.json` probe and the legacy `clawdbot.json` probe both exit
non-zero), `sync` returns success `false` with the no-config-file error
("Sync aborted: no config file found"), and no copy step is ever
invoked: the mount path performs no rsync and the binding path performs
no tar and no upload — the only events are the two probes. -/
theorem no_config_file_aborts (wm : MountSyncWorld) (wb : BindSyncWorld)
    (c1 c2 d1 d2 : Option Int)
    (h1 : wm.checkNew = Except.ok c1) (h1n : c1 ≠ some 0)
    (h2 : wm.checkLegacy = Except.ok c2) (h2n : c2 ≠ some 0)
    (hb : wb.hasBucket = true)
    (h3 : wb.checkNew = Except.ok d1) (h3n : d1 ≠ some 0)
    (h4 : wb.checkLegacy = Except.ok d2) (h4n : d2 ≠ some 0) :
    syncToR2ViaMount wm
      = ({ success := false,
           error := some "Sync aborted: no config file found",
           details := some "Neither openclaw.json nor clawdbot.json found in config directory." },
         [SEv.checkNew, SEv.checkLegacy])
    ∧ syncToR2Binding wb
      = ({ success := false,
           error := some "Sync aborted: no config file found",
           details := some "Neither openclaw.json nor clawdbot.json found." },
         [SEv.checkNew, SEv.checkLegacy]) := by
  constructor
  · simp [syncToR2ViaMount, configCheck, h1, h1n, h2, h2n]
  · simp [syncToR2Binding, configCheck, hb, h3, h3n, h4, h4n]

/-- Witness for C8: both probes exit 1 in both sync paths. -/
theorem no_config_file_aborts_witness :
    syncToR2ViaMount wmNoCfg
      = ({ success := false,
           error := some "Sync aborted: no config file found",
           details := some "Neither openclaw.json nor clawdbot.json found in config directory." },
         [SEv.checkNew, SEv.checkLegacy])
    ∧ syncToR2Binding wbNoCfg
      = ({ success := false,
           error := some "Sync aborted: no config file found",
           details := some "Neither openclaw.json nor clawdbot.json found." },
         [SEv.checkNew, SEv.checkLegacy]) :=
  no_config_file_aborts wmNoCfg wbNoCfg (some 1) (some 1) (some 1) (some 1)
    rfl (by decide) rfl (by decide) rfl rfl (by decide) rfl (by decide)

/-- **C9.** A mount-based sync that reaches the copy step is reported
successful if and only if the timestamp marker read back afterwards is a
nonempty string matching an ISO-8601 date prefix; in that case the
result carries the marker as `lastSync`, and when the copy leaves no
marker (empty or absent readback) the sync is reported failed with the
captured error output (`stderr || stdout`, else a default note) in the
details. -/
theorem mount_sync_marker_governs (wm : MountSyncWorld) (dir : String)
    (hc : (configCheck wm.checkNew wm.checkLegacy "/root/.openclaw"
        "/root/.clawdbot"
        "Neither openclaw.json nor clawdbot.json found in config directory.").1
      = Except.ok dir)
    (hr : wm.rsyncThrow = none) (hct : wm.catThrow = none) :
    ((syncToR2ViaMount wm).1.success = true ↔
      ∃ t, wm.catStdout.map strTrim = some t
        ∧ t ≠ "" ∧ isoDateStart t = true)
    ∧ (∀ t, wm.catStdout.map strTrim = some t → t ≠ "" →
        isoDateStart t = true →
        (syncToR2ViaMount wm).1 = { success := true, lastSync := some t })
    ∧ (wm.catStdout.map strTrim = none
          ∨ wm.catStdout.map strTrim = some "" →
        (syncToR2ViaMount wm).1
          = { success := false, error := some "Sync failed",
              details := some (jsOr wm.rsyncStderr
                (jsOr wm.rsyncStdout "No timestamp file created")) }) := by
  rcases hcs : wm.catStdout with _ | s
  · simp [syncToR2ViaMount, hc, hr, hct, hcs]
  · by_cases h1 : strTrim s = ""
    · simp [syncToR2ViaMount, hc, hr, hct, hcs, h1]
    · by_cases h2 : isoDateStart (strTrim s) = true
      · simp [syncToR2ViaMount, hc, hr, hct, hcs, h1, h2]
      · simp [syncToR2ViaMount, hc, hr, hct, hcs, h1, h2]

/-- Witness for C9: the marker reads back as
"2026-01-27T12:00:00+00:00" (plus a trailing newline that trimming
removes), so the sync is reported successful with that timestamp. -/
theorem mount_sync_marker_governs_witness :
    ((syncToR2ViaMount wmOk).1.success = true ↔
      ∃ t, wmOk.catStdout.map strTrim = some t
        ∧ t ≠ "" ∧ isoDateStart t = true)
    ∧ (∀ t, wmOk.catStdout.map strTrim = some t → t ≠ "" →
        isoDateStart t = true →
        (syncToR2ViaMount wmOk).1 = { success := true, lastSync := some t })
    ∧ (wmOk.catStdout.map strTrim = none
          ∨ wmOk.catStdout.map strTrim = some "" →
        (syncToR2ViaMount wmOk).1
          = { success := false, error := some "Sync failed",
              details := some (jsOr wmOk.rsyncStderr
                (jsOr wmOk.rsyncStdout "No timestamp file created")) }) :=
  mount_sync_marker_governs wmOk "/root/.openclaw" rfl rfl rfl

/-- **C10.** When the archiving step of the binding-based backup
produces empty output (the tar pipeline yields no stdout after trimming), the
call returns an outright failure ("Backup produced no output") and
performs no upload at all: neither the archive object nor the timestamp
marker object is put to the storage API. -/
theorem empty_archive_uploads_nothing (wb : BindSyncWorld) (dir : String)
    (hb : wb.hasBucket = true)
    (hc : (configCheck wb.checkNew wb.checkLegacy ".openclaw" ".clawdbot"
        "Neither openclaw.json nor clawdbot.json found.").1 = Except.ok dir)
    (ht : wb.tarThrow = none)
    (he : (wb.tarStdout.map strTrim).getD "" = "") :
    (syncToR2Binding wb).1.success = false
    ∧ (syncToR2Binding wb).1.error = some "Backup produced no output"
    ∧ SEv.putArchive ∉ (syncToR2Binding wb).2
    ∧ SEv.putMarker ∉ (syncToR2Binding wb).2 := by
  have hred : syncToR2Binding wb
      = ({ success := false, error := some "Backup produced no output",
           details := some (if (wb.tarStderr.map strTrim).getD "" = ""
             then "tar may have failed (check container logs)"
             else (wb.tarStderr.map strTrim).getD "") },
         (configCheck wb.checkNew wb.checkLegacy ".openclaw" ".clawdbot"
           "Neither openclaw.json nor clawdbot.json found.").2 ++ [SEv.tar]) := by
    simp [syncToR2Binding, hb, hc, ht, he]
  have hmem := configCheck_mem wb.checkNew wb.checkLegacy ".openclaw"
    ".clawdbot" "Neither openclaw.json nor clawdbot.json found."
  refine ⟨by simp [hred], by simp [hred], ?_, ?_⟩
  · rw [hred]
    intro h
    rcases List.mem_append.mp h with h | h
    · rcases hmem _ h with h | h <;> simp at h
    · simp at h
  · rw [hred]
    intro h
    rcases List.mem_append.mp h with h | h
    · rcases hmem _ h with h | h <;> simp at h
    · simp at h

/-- Witness for C10: the config check passes via `openclaw.json`, tar
runs but emits only an empty stdout, and nothing is uploaded. -/
theorem empty_archive_uploads_nothing_witness :
    (syncToR2Binding wbEmpty).1.success = false
    ∧ (syncToR2Binding wbEmpty).1.error = some "Backup produced no output"
    ∧ SEv.putArchive ∉ (syncToR2Binding wbEmpty).2
    ∧ SEv.putMarker ∉ (syncToR2Binding wbEmpty).2 :=
  empty_archive_uploads_nothing wbEmpty ".openclaw" rfl rfl rfl (by decide)

end Moltworker
